import Mathlib

/-!
Verification development for `qemu_launcher.py`.

This file gives a shallow embedding of the launch-command compiler
(`build_qemu_command` and its helpers) and settles a list of claims about
it.  Pure string/list manipulation is translated directly; the impure
collaborators are abstracted as explicit parameters:

* the filesystem is a predicate `fileExists : String → Bool`
  (modelling `Path.exists()` / `Path.is_file()`; the file/dir distinction
  is not needed by any claim and is collapsed),
* the outcome of the interactive disk-creation collaborator
  (`create_virtual_disk_interactive`, including its own confirmation
  prompt) is a boolean `createOk`: whether the primary disk exists after
  the creation attempt,
* the answer to the "Primary disk is missing. Continue launch?" prompt is
  a boolean `userContinues`,
* `GLOBAL_SETTINGS["default_vm_storage_dir"]` is `storageRoot`,
* `get_qemu_executable("system")` together with the
  `is_file() or shutil.which()` locatability check is
  `qemuSystemBin : Option String` (`none` = not locatable),
* `CURRENT_OS` (the result of `get_os_type()`, one of
  "linux"/"windows"/"macos"/"unknown") and the
  `/dev/kvm exists ∧ os.access(R_OK|W_OK)` probe form the `Host`.

A `VMConfig` record models one entry of `VM_CONFIGURATIONS`.  Dictionary
keys read with `config.get(key, default)` are modelled as record fields
whose value is the post-default value (a missing key is represented by
the default).  `extra_qemu_args` is modelled as the list of tokens
produced by `shlex.split`; shell-style tokenization itself is treated as
a collaborator and is not re-implemented.
`Path.resolve()` normalization (symlinks, `..`) is not modelled: resolving
a relative path against the storage root is modelled as path joining.
-/

namespace QemuLauncher

/-- `EXACT_AUDIO_DEVICE_DRIVERS` from the source (module-level constant). -/
def EXACT_AUDIO_DEVICE_DRIVERS : List String :=
  ["ich9-intel-hda", "intel-hda", "hda-duplex",
   "ac97", "es1370", "sb16", "adlib",
   "cs4231a", "gus"]

/-- Primary disk configuration (`config["disk_image"]`).  Field values model
the results of the `disk_conf.get(...)` calls in the source: a missing key
is represented by that call's default. -/
structure DiskImage where
  path : String := ""
  format : String := ""
  size : String := ""
  create_if_missing : Bool := false
  interface : String := "virtio"

/-- One entry of `config["shared_disks"]`.  Field values model the
`shared_disk.get(...)` results with their defaults. -/
structure SharedDisk where
  path : String := ""
  format : String := ""
  interface : String := "virtio"
  readonly : Bool := false

/-- One VM configuration (`VM_CONFIGURATIONS[vm_name]`).  Field values model
the `config.get(...)` results with their defaults.  `extra_qemu_args` holds
the `shlex.split` tokens of the configured extra-arguments string
(`shlex.split("") = []`, so the `if extra_args_str:` guard of the source is
the `[]` case).  A non-list `shared_disks` value degrades to `[]` in the
source and is therefore modelled as the empty list. -/
structure VMConfig where
  ram : String := "1G"
  cpu_cores : String := "1"
  machine_type : String := "q35"
  accelerator : String := "auto"
  graphics : String := "std"
  usb_tablet : Bool := true
  disk_image : DiskImage := {}
  shared_disks : List SharedDisk := []
  iso_path : String := ""
  floppy_path : String := ""
  boot_order : String := "c"
  network_enabled : Bool := false
  network_type : String := "user"
  audio_enabled : Bool := false
  audio_device_model : String := "none"
  audio_backend : String := "none"
  extra_qemu_args : List String := []

/-- The host platform: `CURRENT_OS` (a string, as returned by
`get_os_type`) and whether `/dev/kvm` exists and is readable and writable
by the current user. -/
structure Host where
  os : String
  kvmOk : Bool

/-- The impure collaborators of `build_qemu_command`, made explicit. -/
structure Env where
  fileExists : String → Bool
  createOk : Bool
  userContinues : Bool
  storageRoot : String
  qemuSystemBin : Option String

/-- Outcomes of `build_qemu_command` other than a command vector:
`unknownVM` and `binaryNotFound` are the two `return None` paths;
`userAbort` is the `raise SystemExit` path taken when the primary disk is
missing and the user declines to continue (an exception, not a return). -/
inductive BuildError where
  | unknownVM
  | binaryNotFound
  | userAbort
deriving DecidableEq, Repr

/-- The audio decision of the spec's Audio Arbitration Engine, as realized
by the `if audio_enabled_in_config and audio_model != "none" and
audio_backend != "none"` branch of the source. -/
inductive AudioDecision where
  | scriptManaged (backend model : String)
  | disabled
deriving DecidableEq, Repr

/-- Python's `str.lower()`, character by character (kept at the character
level so that it evaluates inside the kernel). -/
def lowerString (s : String) : String := ⟨s.data.map Char.toLower⟩

/-- POSIX notion of an absolute path, modelling `Path.is_absolute()`:
the path starts with `/` (the empty path is not absolute). -/
def isAbsolutePath (p : String) : Bool :=
  p.data.headD ' ' == '/'

/-- `Path(p) if Path(p).is_absolute() else storage_dir / p` — the primary
disk path resolution of the source (lines 319-320).  `Path.resolve()`
normalization is not modelled. -/
def resolvePrimaryPath (root p : String) : String :=
  if isAbsolutePath p then p else root ++ "/" ++ p

/-- `"audiodev=" in v.lower()` — Python substring test: some tail of the
lower-cased character list starts with `audiodev=`. -/
def containsAudiodevEq (v : String) : Bool :=
  (lowerString v).data.tails.any (fun t => "audiodev=".data.isPrefixOf t)

/-- `v.split(',')[0]` — the comma-separated first field of a value token
(the characters before the first comma; the whole string when there is
no comma). -/
def firstCommaField (v : String) : String :=
  ⟨v.data.takeWhile (· != ',')⟩

/-- The audio-device test applied to a `-device` value token, both in the
extra-args filter (line 438-439) and in the post-assembly sanity scan
(lines 462-463): the value contains `audiodev=` case-insensitively, or its
comma-separated first field, lower-cased, is a known audio device driver. -/
def isAudioDeviceValue (v : String) : Bool :=
  containsAudiodevEq v
    || EXACT_AUDIO_DEVICE_DRIVERS.contains (lowerString (firstCommaField v))

/-- `config.get("audio_device_model", "none").lower()` (line 398). -/
def audioModel (cfg : VMConfig) : String := lowerString cfg.audio_device_model

/-- `config.get("audio_backend", "none").lower()` (line 399). -/
def audioBackend (cfg : VMConfig) : String := lowerString cfg.audio_backend

/-- The backend actually used when the script emits audio arguments
(lines 402-408): `auto` resolves per `CURRENT_OS`, anything else passes
through verbatim. -/
def resolveAudioBackend (os : String) (b : String) : String :=
  if b == "auto" then
    if os == "windows" then "wasapi"
    else if os == "linux" then "pa"
    else if os == "macos" then "coreaudio"
    else "sdl"
  else b

/-- Whether the script generates its own audio arguments — the condition
of line 401. -/
def scriptAudioEnabled (cfg : VMConfig) : Bool :=
  cfg.audio_enabled && audioModel cfg != "none" && audioBackend cfg != "none"

/-- `script_generated_audio_args` (lines 395-412). -/
def scriptAudioArgs (host : Host) (cfg : VMConfig) : List String :=
  if scriptAudioEnabled cfg then
    ["-audiodev", resolveAudioBackend host.os (audioBackend cfg) ++ ",id=audio0",
     "-device", audioModel cfg ++ ",audiodev=audio0"]
  else []

/-- `script_intends_to_disable_audio` (lines 396, 413-414). -/
def scriptIntendsDisable (cfg : VMConfig) : Bool :=
  !scriptAudioEnabled cfg

/-- The spec's two-state `AudioDecision`, as derived from the source's
branch: `ScriptManaged(backend, model)` carries the resolved backend and
the lower-cased device model. -/
def audioDecision (host : Host) (cfg : VMConfig) : AudioDecision :=
  if scriptAudioEnabled cfg then
    .scriptManaged (resolveAudioBackend host.os (audioBackend cfg)) (audioModel cfg)
  else .disabled

/-- `script_generated_audio_args or script_intends_to_disable_audio` — the
guard under which the extra-args audio filtering runs (line 425). -/
def audioFilterActive (host : Host) (cfg : VMConfig) : Bool :=
  !(scriptAudioArgs host cfg).isEmpty || scriptIntendsDisable cfg

/-- The extra-args filtering loop (lines 416-448), translated from the
index-based `while` loop: `-soundhw` and `-audiodev` are dropped together
with the following token when one exists (a trailing flag is dropped
alone); `-device` is dropped together with its value exactly when the
value token is non-empty (`and arg_val_next` truthiness) and passes the
audio-device test; every other token is appended and scanning continues
at the next token. -/
def filterExtra (active : Bool) : List String → List String
  | [] => []
  | a :: rest =>
    if active then
      if a == "-soundhw" || a == "-audiodev" then
        match rest with
        | [] => []
        | _ :: rest' => filterExtra active rest'
      else if a == "-device" then
        match rest with
        | [] => [a]
        | v :: rest' =>
          if v != "" && isAudioDeviceValue v then filterExtra active rest'
          else a :: filterExtra active (v :: rest')
      else a :: filterExtra active rest
    else a :: filterExtra active rest

/-- The acceleration segment of the base arguments (lines 298-307): on
`auto`, linux with an accessible `/dev/kvm` chooses kvm and additionally
emits the IOMMU device (the device is extended before `-accel`, as in the
source); windows chooses whpx, macos hvf, anything else tcg.  A non-`auto`
selector is used verbatim. -/
def accelArgs (host : Host) (accel : String) : List String :=
  if accel == "auto" then
    if host.os == "linux" && host.kvmOk then
      ["-device", "intel-iommu,intremap=on,caching-mode=on", "-accel", "kvm"]
    else if host.os == "windows" then ["-accel", "whpx,kernel-irqchip=on"]
    else if host.os == "macos" then ["-accel", "hvf"]
    else ["-accel", "tcg"]
  else ["-accel", accel]

/-- One drive's comma-joined parameter list (lines 336-344 and 365-376):
`[file, if, index, media]`, with `format=<fmt>` inserted at position 1
when the format string is non-empty, and `readonly=on` appended when the
read-only flag is set (shared disks only; the primary passes `ro = false`). -/
def driveParamsFor (path fmt itf : String) (idx : Nat) (ro : Bool) : List String :=
  let ps :=
    if fmt != "" then
      ["file=" ++ path, "format=" ++ fmt, "if=" ++ itf,
       "index=" ++ toString idx, "media=disk"]
    else
      ["file=" ++ path, "if=" ++ itf, "index=" ++ toString idx, "media=disk"]
  if ro then ps ++ ["readonly=on"] else ps

/-- Whether the primary disk ends up attached (line 335 re-check): it has a
configured path and either existed at the first check, or
`create_if_missing` is set and the creation attempt left it existing. -/
def primaryAttached (env : Env) (cfg : VMConfig) : Bool :=
  cfg.disk_image.path != "" &&
    (env.fileExists (resolvePrimaryPath env.storageRoot cfg.disk_image.path)
     || (cfg.disk_image.create_if_missing && env.createOk))

/-- Whether the compilation aborts with `SystemExit` (lines 328-333): the
primary disk has a path, is still missing after any creation attempt, and
the user declines to continue. -/
def primaryAborts (env : Env) (cfg : VMConfig) : Bool :=
  cfg.disk_image.path != "" &&
    !env.fileExists (resolvePrimaryPath env.storageRoot cfg.disk_image.path) &&
    !(cfg.disk_image.create_if_missing && env.createOk) &&
    !env.userContinues

/-- The primary-disk `-drive` tokens (lines 335-347): emitted exactly when
the primary disk is attached, always at index 0. -/
def primaryDriveArgs (env : Env) (cfg : VMConfig) : List String :=
  if primaryAttached env cfg then
    ["-drive", String.intercalate ","
      (driveParamsFor (resolvePrimaryPath env.storageRoot cfg.disk_image.path)
        cfg.disk_image.format cfg.disk_image.interface 0 false)]
  else []

/-- The index at which the shared-disk loop starts (`current_drive_index`
after the primary-disk block). -/
def startIdx (env : Env) (cfg : VMConfig) : Nat :=
  if primaryAttached env cfg then 1 else 0

/-- The shared-disk loop (lines 355-381): an entry with no path is skipped,
an entry whose path (used verbatim, with no storage-root resolution) does
not exist is skipped, and neither consumes an index; otherwise the drive is
emitted at the running index, which then increments. -/
def sharedDriveArgs (env : Env) : Nat → List SharedDisk → List String
  | _, [] => []
  | idx, d :: rest =>
    if d.path == "" then sharedDriveArgs env idx rest
    else if !env.fileExists d.path then sharedDriveArgs env idx rest
    else
      ["-drive", String.intercalate ","
        (driveParamsFor d.path d.format d.interface idx d.readonly)]
      ++ sharedDriveArgs env (idx + 1) rest

/-- The iso/floppy media tokens (lines 383-388): emitted only for a
non-empty path naming an existing file. -/
def mediaArgs (env : Env) (cfg : VMConfig) : List String :=
  (if cfg.iso_path != "" && env.fileExists cfg.iso_path
   then ["-cdrom", cfg.iso_path] else [])
  ++ (if cfg.floppy_path != "" && env.fileExists cfg.floppy_path
      then ["-fda", cfg.floppy_path] else [])

/-- The network segment (lines 392-393). -/
def netArgs (cfg : VMConfig) : List String :=
  if cfg.network_enabled && cfg.network_type == "user" then
    ["-netdev", "user,id=net0", "-device", "e1000,netdev=net0"]
  else []

/-- `command_parts["base"]` in emission order (lines 292-393). -/
def baseArgs (env : Env) (host : Host) (cfg : VMConfig) (bin : String) : List String :=
  [bin, "-m", cfg.ram, "-smp", cfg.cpu_cores, "-machine", cfg.machine_type]
  ++ accelArgs host cfg.accelerator
  ++ ["-vga", cfg.graphics]
  ++ (if cfg.graphics != "none" then ["-display", "default,show-cursor=on"] else [])
  ++ (if cfg.usb_tablet then ["-usb", "-device", "usb-tablet"] else [])
  ++ primaryDriveArgs env cfg
  ++ sharedDriveArgs env (startIdx env cfg) cfg.shared_disks
  ++ mediaArgs env cfg
  ++ ["-boot", "order=" ++ cfg.boot_order]
  ++ netArgs cfg

/-- The body of `build_qemu_command` after the VM-id and binary checks:
either the `SystemExit` abort, or the final vector
`base ++ filtered extra ++ script audio` (lines 453-455). -/
def buildWithBin (env : Env) (host : Host) (cfg : VMConfig) (bin : String) :
    Except BuildError (List String) :=
  if primaryAborts env cfg then .error .userAbort
  else .ok (baseArgs env host cfg bin
    ++ filterExtra (audioFilterActive host cfg) cfg.extra_qemu_args
    ++ scriptAudioArgs host cfg)

/-- `build_qemu_command` for a known configuration: the binary check of
lines 288-290 followed by the assembly. -/
def buildFromConfig (env : Env) (host : Host) (cfg : VMConfig) :
    Except BuildError (List String) :=
  match env.qemuSystemBin with
  | none => .error .binaryNotFound
  | some bin => buildWithBin env host cfg bin

/-- `build_qemu_command(vm_name)` (lines 283-473): the `VM_CONFIGURATIONS`
dictionary is modelled as an association list. -/
def build_qemu_command (env : Env) (host : Host)
    (configs : List (String × VMConfig)) (vm_name : String) :
    Except BuildError (List String) :=
  match configs.lookup vm_name with
  | none => .error .unknownVM
  | some cfg => buildFromConfig env host cfg

/-- `final_command.index(t)` — the index of the first occurrence of `t`
(Python `list.index`); returns the length when absent (the callers below
only use it under a membership guard, as the source does). -/
def firstIndexFrom : List String → String → Nat
  | [], _ => 0
  | a :: rest, t => if a == t then 0 else firstIndexFrom rest t + 1

/-- The `-soundhw` clause of the post-assembly sanity scan (line 460):
looks at the token after the FIRST `-soundhw` occurrence in the whole
vector (the source's `final_command.index(arg)`). -/
def soundhwSuccessorActive (l : List String) : Bool :=
  match l[firstIndexFrom l "-soundhw" + 1]? with
  | some v => lowerString v != "none"
  | none => false

/-- The `-device` clause of the post-assembly sanity scan (lines 461-463):
looks at the token after the FIRST `-device` occurrence in the whole
vector. -/
def deviceSuccessorAudio (l : List String) : Bool :=
  match l[firstIndexFrom l "-device" + 1]? with
  | some v => isAudioDeviceValue v
  | none => false

/-- `has_any_active_audio_config_in_final_cmd` (lines 458-465). -/
def hasAnyActiveAudio (l : List String) : Bool :=
  l.any fun arg =>
    arg == "-audiodev" ||
    (arg == "-soundhw" && soundhwSuccessorActive l) ||
    (arg == "-device" && deviceSuccessorAudio l)

/-- Whether the "Warning: Script intended to disable audio, but
script-generated audio arguments were found" message is printed
(lines 457-472): the scan runs only when the script intends to disable
audio, and the warning branch additionally requires the detected audio
configuration AND non-empty script-generated audio arguments. -/
def audioSanityWarning (host : Host) (cfg : VMConfig) (final : List String) : Bool :=
  scriptIntendsDisable cfg && hasAnyActiveAudio final
    && !(scriptAudioArgs host cfg).isEmpty

/-! ## Claim-side definitions

The following definitions follow the words of the specification, for
comparison with the source-derived definitions above. -/

/-- The passthrough filter as the spec states it: remove, flag and value
together, every `-soundhw <value>` pair, every `-audiodev <value>` pair,
and every `-device <value>` pair with an audio value; every other token
passes through unchanged and in order.  In particular a trailing flag
with no value token is not part of any pair and passes through. -/
def claimFilter : List String → List String
  | [] => []
  | [a] => [a]
  | a :: v :: rest =>
    if a == "-soundhw" || a == "-audiodev" then claimFilter rest
    else if a == "-device" && isAudioDeviceValue v then claimFilter rest
    else a :: claimFilter (v :: rest)

/-- The passthrough filter as the claim must be amended to match the
source: as `claimFilter`, except that a trailing `-soundhw` or
`-audiodev` flag with no following value token is also removed (alone). -/
def claimFilterAmended : List String → List String
  | [] => []
  | [a] => if a == "-soundhw" || a == "-audiodev" then [] else [a]
  | a :: v :: rest =>
    if a == "-soundhw" || a == "-audiodev" then claimFilterAmended rest
    else if a == "-device" && isAudioDeviceValue v then claimFilterAmended rest
    else a :: claimFilterAmended (v :: rest)

/-- The spec's `ResolvedDrive` derived entity: absolute-or-configured
path, format, interface, zero-based attachment index, read-only flag. -/
structure ResolvedDrive where
  path : String
  format : String
  interface : String
  index : Nat
  readonly : Bool
deriving DecidableEq, Repr

/-- The shared-disk entries that actually resolve (same skip conditions as
`sharedDriveArgs`), as records carrying their assigned indices. -/
def sharedResolved (env : Env) : Nat → List SharedDisk → List ResolvedDrive
  | _, [] => []
  | idx, d :: rest =>
    if d.path == "" then sharedResolved env idx rest
    else if !env.fileExists d.path then sharedResolved env idx rest
    else ⟨d.path, d.format, d.interface, idx, d.readonly⟩
         :: sharedResolved env (idx + 1) rest

/-- All drives the compiler attaches, primary first, as `ResolvedDrive`
records. -/
def emittedDrives (env : Env) (cfg : VMConfig) : List ResolvedDrive :=
  (if primaryAttached env cfg then
    [⟨resolvePrimaryPath env.storageRoot cfg.disk_image.path,
      cfg.disk_image.format, cfg.disk_image.interface, 0, false⟩]
   else [])
  ++ sharedResolved env (startIdx env cfg) cfg.shared_disks

/-- The two command-vector tokens of one resolved drive:
`-drive` followed by the comma-joined parameter list. -/
def driveTokensOf (rd : ResolvedDrive) : List String :=
  ["-drive", String.intercalate ","
    (driveParamsFor rd.path rd.format rd.interface rd.index rd.readonly)]

/-- The number of adjacent token pairs `(f, v)` in a vector — the
flag/value occurrences of `f` with value exactly `v`. -/
def flagValuePairCount (l : List String) (f v : String) : Nat :=
  (l.zip l.tail).countP (fun p => p.1 == f && p.2 == v)

/-- The number of adjacent token pairs whose first token is `-device` and
whose second token is an audio device value — the audio `-device`
arguments of a vector. -/
def audioDevicePairCount (l : List String) : Nat :=
  (l.zip l.tail).countP (fun p => p.1 == "-device" && isAudioDeviceValue p.2)

/-! ## Shared concrete instances (used by witnesses and counterexamples) -/

/-- An environment with no files, no creation, a located binary. -/
def envSimple : Env :=
  { fileExists := fun _ => false, createOk := false, userContinues := true,
    storageRoot := "/vms", qemuSystemBin := some "qemu-system-x86_64" }

/-- A Linux host without an accessible `/dev/kvm`. -/
def hostLinuxNoKvm : Host := ⟨"linux", false⟩

/-! ## Helper lemmas -/

/-- The extra-args filter guard of line 425 is satisfied for every
configuration: either the script generated audio arguments, or it intends
to disable audio. -/
lemma audioFilterActive_eq_true (host : Host) (cfg : VMConfig) :
    audioFilterActive host cfg = true := by
  unfold audioFilterActive scriptIntendsDisable scriptAudioArgs
  by_cases h : scriptAudioEnabled cfg <;> simp [h]

/-- The first drive parameter is always `file=<path>`. -/
lemma driveParamsFor_head (path fmt itf : String) (idx : Nat) (ro : Bool) :
    (driveParamsFor path fmt itf idx ro).head? = some ("file=" ++ path) := by
  cases hf : (fmt != "") <;> cases hr : ro <;> simp [driveParamsFor, hf, hr]

/-- The shared-disk token loop produces exactly the tokens of the resolved
shared-disk records. -/
lemma sharedDriveArgs_eq_flatMap (env : Env) :
    ∀ (i : Nat) (ds : List SharedDisk),
      sharedDriveArgs env i ds = (sharedResolved env i ds).flatMap driveTokensOf
  | _, [] => by simp [sharedDriveArgs, sharedResolved]
  | i, d :: rest => by
    by_cases h1 : d.path == ""
    · simp [sharedDriveArgs, sharedResolved, h1,
        sharedDriveArgs_eq_flatMap env i rest]
    · by_cases h2 : env.fileExists d.path
      · simp [sharedDriveArgs, sharedResolved, h1, h2, driveTokensOf,
          sharedDriveArgs_eq_flatMap env (i + 1) rest]
      · simp [sharedDriveArgs, sharedResolved, h1, h2,
          sharedDriveArgs_eq_flatMap env i rest]

/-- Indices of the resolved shared disks: the consecutive range that starts
at the loop's starting index — skipped entries consume no index. -/
lemma sharedResolved_map_index (env : Env) :
    ∀ (i : Nat) (ds : List SharedDisk),
      (sharedResolved env i ds).map ResolvedDrive.index
        = List.range' i (sharedResolved env i ds).length
  | _, [] => by simp [sharedResolved]
  | i, d :: rest => by
    by_cases h1 : d.path == ""
    · simp [sharedResolved, h1, sharedResolved_map_index env i rest]
    · by_cases h2 : env.fileExists d.path
      · simp [sharedResolved, h1, h2, sharedResolved_map_index env (i + 1) rest,
          List.range'_succ]
      · simp [sharedResolved, h1, h2, sharedResolved_map_index env i rest]

/-! ## Claims -/

/-- C5: for an `auto` accelerator selector, linux with an accessible
`/dev/kvm` yields `-accel kvm` plus the IOMMU device argument; windows
yields `-accel whpx,kernel-irqchip=on`; macos `-accel hvf`; anything else
`-accel tcg`.  A non-`auto` selector is used verbatim as the `-accel`
value, with no IOMMU device appended. -/
theorem c5_accelerator_resolution (host : Host) (a : String) :
    (a = "auto" →
      (host.os = "linux" → host.kvmOk = true →
        accelArgs host a
          = ["-device", "intel-iommu,intremap=on,caching-mode=on", "-accel", "kvm"]) ∧
      (host.os = "windows" → accelArgs host a = ["-accel", "whpx,kernel-irqchip=on"]) ∧
      (host.os = "macos" → accelArgs host a = ["-accel", "hvf"]) ∧
      (¬(host.os = "linux" ∧ host.kvmOk = true) → host.os ≠ "windows" →
        host.os ≠ "macos" → accelArgs host a = ["-accel", "tcg"])) ∧
    (a ≠ "auto" → accelArgs host a = ["-accel", a]) := by
  constructor
  · rintro rfl
    refine ⟨?_, ?_, ?_, ?_⟩
    · intro h1 h2; simp [accelArgs, h1, h2]
    · intro h1; simp [accelArgs, h1]
    · intro h1; simp [accelArgs, h1]
    · intro h1 h2 h3
      have hw : (host.os == "windows") = false := by simpa [beq_iff_eq] using h2
      have hm : (host.os == "macos") = false := by simpa [beq_iff_eq] using h3
      have hk : (host.os == "linux" && host.kvmOk) = false := by
        by_cases hl : host.os = "linux"
        · have hkv : host.kvmOk = false := by
            by_cases hb : host.kvmOk = true
            · exact absurd ⟨hl, hb⟩ h1
            · simpa using hb
          simp [hkv]
        · have hl' : (host.os == "linux") = false := by simpa [beq_iff_eq] using hl
          simp [hl']
      simp [accelArgs, hk, hw, hm]
  · intro h1; simp [accelArgs, h1]

/-- C5 witness: concrete auto-resolution on a Linux host with kvm. -/
theorem c5_accelerator_resolution_witness :
    accelArgs ⟨"linux", true⟩ "auto"
      = ["-device", "intel-iommu,intremap=on,caching-mode=on", "-accel", "kvm"] :=
  (c5_accelerator_resolution ⟨"linux", true⟩ "auto").1 rfl |>.1 rfl rfl

/-- C3 counterexample: with `audio_device_model = "None"` the enable flag
is set and neither raw selector equals `"none"`, yet the decision is
`Disabled`, because the source lower-cases both selectors before
comparing — the claimed biconditional over the configured values fails. -/
theorem c3_counterexample_case_sensitive :
    audioDecision ⟨"linux", true⟩
        { audio_enabled := true, audio_device_model := "None", audio_backend := "pa" }
      = .disabled
    ∧ ({ audio_enabled := true, audio_device_model := "None",
         audio_backend := "pa" } : VMConfig).audio_device_model ≠ "none" := by
  exact ⟨by decide, by decide⟩

/-- C3 amended: the decision is `ScriptManaged` iff the audio enable flag
is set and the LOWER-CASED device model and backend selectors both differ
from `"none"`; in every other case the decision is `Disabled` and no
script audio arguments are emitted. -/
theorem c3_amended_audio_decision (host : Host) (cfg : VMConfig) :
    ((∃ b m, audioDecision host cfg = .scriptManaged b m) ↔
      (cfg.audio_enabled = true ∧ lowerString cfg.audio_device_model ≠ "none"
        ∧ lowerString cfg.audio_backend ≠ "none"))
    ∧ (audioDecision host cfg = .disabled → scriptAudioArgs host cfg = []) := by
  have hiff : scriptAudioEnabled cfg = true ↔
      (cfg.audio_enabled = true ∧ lowerString cfg.audio_device_model ≠ "none"
        ∧ lowerString cfg.audio_backend ≠ "none") := by
    simp [scriptAudioEnabled, audioModel, audioBackend, Bool.and_eq_true,
      bne_iff_ne, and_assoc]
  by_cases h : scriptAudioEnabled cfg
  · refine ⟨⟨fun _ => hiff.mp h,
      fun _ => ⟨resolveAudioBackend host.os (audioBackend cfg), audioModel cfg,
        by simp [audioDecision, h]⟩⟩, ?_⟩
    intro hd
    simp [audioDecision, h] at hd
  · refine ⟨⟨?_, ?_⟩, fun _ => by simp [scriptAudioArgs, h]⟩
    · rintro ⟨b, m, hb⟩
      simp [audioDecision, h] at hb
    · intro hr
      exact absurd (hiff.mpr hr) (by simpa using h)

/-- C3 witness: a concrete enabled configuration resolves to
`ScriptManaged`. -/
theorem c3_amended_audio_decision_witness :
    ∃ b m, audioDecision ⟨"linux", true⟩
        { audio_enabled := true, audio_device_model := "ich9-intel-hda",
          audio_backend := "pa" }
      = .scriptManaged b m :=
  (c3_amended_audio_decision ⟨"linux", true⟩
      { audio_enabled := true, audio_device_model := "ich9-intel-hda",
        audio_backend := "pa" }).1.mpr ⟨rfl, by decide, by decide⟩

/-- C2: the indices of the emitted drives form the contiguous range
`0, 1, …`; the primary disk, when attached, is the first emitted drive and
has index 0; the emitted drive tokens are exactly the tokens of the
resolved drive records in that order (skipped shared-disk entries consume
no index). -/
theorem c2_drive_indices_contiguous (env : Env) (cfg : VMConfig) :
    (emittedDrives env cfg).map ResolvedDrive.index
        = List.range (emittedDrives env cfg).length
    ∧ (primaryAttached env cfg = true →
        (emittedDrives env cfg).head?
          = some ⟨resolvePrimaryPath env.storageRoot cfg.disk_image.path,
              cfg.disk_image.format, cfg.disk_image.interface, 0, false⟩)
    ∧ primaryDriveArgs env cfg
        ++ sharedDriveArgs env (startIdx env cfg) cfg.shared_disks
      = (emittedDrives env cfg).flatMap driveTokensOf := by
  refine ⟨?_, ?_, ?_⟩
  · by_cases h : primaryAttached env cfg
    · simp [emittedDrives, h, startIdx,
        sharedResolved_map_index env 1 cfg.shared_disks,
        List.range_eq_range', List.range'_succ]
    · simp [emittedDrives, h, startIdx,
        sharedResolved_map_index env 0 cfg.shared_disks, List.range_eq_range']
  · intro h; simp [emittedDrives, h]
  · by_cases h : primaryAttached env cfg
    · simp [emittedDrives, primaryDriveArgs, h, startIdx, driveTokensOf,
        sharedDriveArgs_eq_flatMap env 1 cfg.shared_disks]
    · simp [emittedDrives, primaryDriveArgs, h, startIdx,
        sharedDriveArgs_eq_flatMap env 0 cfg.shared_disks]

/-- C2 witness: a concrete attached primary disk is the first emitted
drive, at index 0. -/
theorem c2_drive_indices_contiguous_witness :
    (emittedDrives
        { fileExists := fun p => p == "/vms/main.img", createOk := false,
          userContinues := true, storageRoot := "/vms",
          qemuSystemBin := some "qemu-system-x86_64" }
        { disk_image := { path := "main.img" } }).head?
      = some ⟨"/vms/main.img", "", "virtio", 0, false⟩ :=
  (c2_drive_indices_contiguous
      { fileExists := fun p => p == "/vms/main.img", createOk := false,
        userContinues := true, storageRoot := "/vms",
        qemuSystemBin := some "qemu-system-x86_64" }
      { disk_image := { path := "main.img" } }).2.1 (by decide)

/-- Appending to an absolute path keeps it absolute. -/
lemma isAbsolutePath_append (root s : String) (h : isAbsolutePath root = true) :
    isAbsolutePath (root ++ s) = true := by
  unfold isAbsolutePath at *
  cases hd : root.data with
  | nil => simp [hd] at h
  | cons c tl =>
    have hds : (root ++ s).data = c :: (tl ++ s.data) := by
      simp [String.data_append, hd]
    simp only [hds, List.headD_cons]
    simpa [hd] using h

/-- C8 counterexample: a shared disk with a relative path is emitted with
`file=` equal to the configured relative path verbatim — it is NOT
resolved against the storage root (`/vms`), unlike the primary disk. -/
theorem c8_counterexample_shared_not_resolved :
    isAbsolutePath "shared.img" = false
    ∧ sharedDriveArgs
        { fileExists := fun p => p == "shared.img", createOk := false,
          userContinues := true, storageRoot := "/vms",
          qemuSystemBin := some "qemu-system-x86_64" }
        0 [{ path := "shared.img" }]
        = ["-drive", "file=shared.img,if=virtio,index=0,media=disk"]
    ∧ resolvePrimaryPath "/vms" "shared.img" = "/vms/shared.img"
    ∧ ("file=shared.img" : String) ≠ "file=/vms/shared.img" := by
  exact ⟨by decide, by decide, by decide, by decide⟩

/-- C8 amended: the PRIMARY disk path is resolved against the storage root
when relative (and the result is absolute whenever the storage root is);
a SHARED disk path is used verbatim as the `file=` value, with no
storage-root resolution. -/
theorem c8_amended_path_resolution :
    (∀ (env : Env) (cfg : VMConfig), primaryAttached env cfg = true →
      ∃ ps, primaryDriveArgs env cfg = ["-drive", String.intercalate "," ps]
        ∧ ps.head? = some ("file=" ++
            (if isAbsolutePath cfg.disk_image.path then cfg.disk_image.path
             else env.storageRoot ++ "/" ++ cfg.disk_image.path)))
    ∧ (∀ root p, isAbsolutePath root = true →
        isAbsolutePath (resolvePrimaryPath root p) = true)
    ∧ (∀ (env : Env) (i : Nat) (d : SharedDisk) (rest : List SharedDisk),
        d.path ≠ "" → env.fileExists d.path = true →
        sharedDriveArgs env i (d :: rest)
          = ["-drive", String.intercalate ","
              (driveParamsFor d.path d.format d.interface i d.readonly)]
            ++ sharedDriveArgs env (i + 1) rest
        ∧ (driveParamsFor d.path d.format d.interface i d.readonly).head?
            = some ("file=" ++ d.path)) := by
  refine ⟨?_, ?_, ?_⟩
  · intro env cfg h
    refine ⟨driveParamsFor (resolvePrimaryPath env.storageRoot cfg.disk_image.path)
        cfg.disk_image.format cfg.disk_image.interface 0 false,
      by simp [primaryDriveArgs, h], ?_⟩
    simpa [resolvePrimaryPath] using
      driveParamsFor_head (resolvePrimaryPath env.storageRoot cfg.disk_image.path)
        cfg.disk_image.format cfg.disk_image.interface 0 false
  · intro root p habs
    unfold resolvePrimaryPath
    by_cases hp : isAbsolutePath p
    · simp [hp]
    · simp only [hp, Bool.false_eq_true, if_false]
      exact isAbsolutePath_append (root ++ "/") p
        (isAbsolutePath_append root "/" habs)
  · intro env i d rest h1 h2
    have h1' : (d.path == "") = false := by simpa [beq_iff_eq] using h1
    exact ⟨by simp [sharedDriveArgs, h1', h2], driveParamsFor_head _ _ _ _ _⟩

/-- C8 witness: a relative primary path resolves against the storage root
and the resolved path is emitted as the `file=` parameter. -/
theorem c8_amended_path_resolution_witness :
    isAbsolutePath (resolvePrimaryPath "/vms" "main.img") = true
    ∧ ∃ ps, primaryDriveArgs
        { fileExists := fun p => p == "/vms/main.img", createOk := false,
          userContinues := true, storageRoot := "/vms",
          qemuSystemBin := some "qemu-system-x86_64" }
        { disk_image := { path := "main.img" } }
        = ["-drive", String.intercalate "," ps]
        ∧ ps.head? = some ("file=" ++
            (if isAbsolutePath "main.img" then "main.img"
             else "/vms" ++ "/" ++ "main.img")) :=
  ⟨c8_amended_path_resolution.2.1 "/vms" "main.img" (by decide),
   c8_amended_path_resolution.1
      { fileExists := fun p => p == "/vms/main.img", createOk := false,
        userContinues := true, storageRoot := "/vms",
        qemuSystemBin := some "qemu-system-x86_64" }
      { disk_image := { path := "main.img" } } (by decide)⟩

/-- C9: command building returns the `unknownVM` or `binaryNotFound`
failure exactly when the VM id is not among the known configurations or
the system binary cannot be located (the interactive missing-primary-disk
abort is a `SystemExit`, modelled as the distinct `userAbort` outcome,
and no partial vector is ever returned). -/
theorem c9_failure_conditions (env : Env) (host : Host)
    (configs : List (String × VMConfig)) (vm_name : String) :
    (build_qemu_command env host configs vm_name = .error .unknownVM
      ∨ build_qemu_command env host configs vm_name = .error .binaryNotFound)
    ↔ (configs.lookup vm_name = none ∨ env.qemuSystemBin = none) := by
  unfold build_qemu_command buildFromConfig
  cases hl : configs.lookup vm_name with
  | none => simp
  | some cfg =>
    cases hb : env.qemuSystemBin with
    | none => simp
    | some bin =>
      simp only [Option.some_ne_none, or_self, iff_false]
      unfold buildWithBin
      by_cases ha : primaryAborts env cfg <;> simp [ha]

/-- C9 witness: an unknown VM id yields the failure result. -/
theorem c9_failure_conditions_witness :
    build_qemu_command envSimple hostLinuxNoKvm [] "vm" = .error .unknownVM
      ∨ build_qemu_command envSimple hostLinuxNoKvm [] "vm"
          = .error .binaryNotFound :=
  (c9_failure_conditions envSimple hostLinuxNoKvm [] "vm").mpr (Or.inl rfl)

/-- The configuration of the C10 counterexample: network enabled with a
non-`user` type, and passthrough extra arguments that themselves carry
network tokens. -/
def cfgC10 : VMConfig :=
  { network_enabled := true, network_type := "bridge",
    extra_qemu_args := ["-netdev", "bridge,id=net0"] }

/-- The vector compiled from `cfgC10`. -/
def vC10 : List String :=
  ["qemu-system-x86_64", "-m", "1G", "-smp", "1", "-machine", "q35",
   "-accel", "tcg", "-vga", "std", "-display", "default,show-cursor=on",
   "-usb", "-device", "usb-tablet", "-boot", "order=c",
   "-netdev", "bridge,id=net0"]

/-- C10 counterexample: with network enabled and a non-`user` type, the
final vector can still contain network tokens — the user-supplied
`-netdev bridge,id=net0` passes through the (audio-only) filter, so the
claim's "no network tokens at all" fails. -/
theorem c10_counterexample_passthrough_netdev :
    cfgC10.network_enabled = true ∧ cfgC10.network_type ≠ "user"
    ∧ buildFromConfig envSimple hostLinuxNoKvm cfgC10 = .ok vC10
    ∧ "-netdev" ∈ vC10 := by
  exact ⟨rfl, by decide, rfl, by decide⟩

/-- C10 amended: the compiler's own network segment is
`-netdev user,id=net0 -device e1000,netdev=net0` exactly when the network
enable flag is true and the type is `"user"`, and is empty otherwise
(user passthrough tokens are preserved and may still contain network
arguments). -/
theorem c10_amended_network_emission (cfg : VMConfig) :
    (netArgs cfg = ["-netdev", "user,id=net0", "-device", "e1000,netdev=net0"]
      ↔ (cfg.network_enabled = true ∧ cfg.network_type = "user"))
    ∧ (¬(cfg.network_enabled = true ∧ cfg.network_type = "user") →
        netArgs cfg = []) := by
  have hb : (cfg.network_enabled && cfg.network_type == "user") = true
      ↔ (cfg.network_enabled = true ∧ cfg.network_type = "user") := by
    simp [Bool.and_eq_true]
  by_cases h : cfg.network_enabled && cfg.network_type == "user"
  · exact ⟨⟨fun _ => hb.mp h, fun _ => by simp [netArgs, h]⟩,
      fun hn => absurd (hb.mp h) hn⟩
  · have hne : ¬(cfg.network_enabled = true ∧ cfg.network_type = "user") :=
      fun hr => h (hb.mpr hr)
    refine ⟨⟨fun he => ?_, fun hr => absurd hr hne⟩, fun _ => by simp [netArgs, h]⟩
    simp [netArgs, h] at he

/-- C10 witness: a user-type network configuration emits the network
segment. -/
theorem c10_amended_network_emission_witness :
    netArgs { network_enabled := true, network_type := "user" }
      = ["-netdev", "user,id=net0", "-device", "e1000,netdev=net0"] :=
  (c10_amended_network_emission
      { network_enabled := true, network_type := "user" }).1.mpr ⟨rfl, rfl⟩

/-- The empty string is not an audio device value. -/
lemma isAudioDeviceValue_empty : isAudioDeviceValue "" = false := by decide

/-- The source's filtering loop agrees, on every token list, with the
amended spec-side filter (pair removal plus removal of a trailing lone
`-soundhw`/`-audiodev` flag). -/
lemma filterExtra_eq_claimFilterAmended :
    ∀ ts, filterExtra true ts = claimFilterAmended ts
  | [] => rfl
  | [a] => by
    by_cases h1 : a == "-soundhw" || a == "-audiodev"
    · simp [filterExtra, claimFilterAmended, h1]
    · by_cases h2 : a == "-device"
      · simp [filterExtra, claimFilterAmended, h1, h2]
      · simp [filterExtra, claimFilterAmended, h1, h2]
  | a :: v :: rest => by
    have ih1 := filterExtra_eq_claimFilterAmended rest
    have ih2 := filterExtra_eq_claimFilterAmended (v :: rest)
    by_cases h1 : a == "-soundhw" || a == "-audiodev"
    · simp [filterExtra, claimFilterAmended, h1, ih1]
    · by_cases h2 : a == "-device"
      · by_cases h3 : v != "" && isAudioDeviceValue v
        · have h3' : (v != "") = true ∧ isAudioDeviceValue v = true := by
            simpa using h3
          have hv0 : v ≠ "" := by simpa [bne_iff_ne] using h3'.1
          simp [filterExtra, claimFilterAmended, h1, h2, h3, h3'.2, hv0, ih1]
        · have hv : isAudioDeviceValue v = false := by
            by_cases hv0 : v = ""
            · subst hv0; exact isAudioDeviceValue_empty
            · by_cases hva : isAudioDeviceValue v
              · exact absurd
                  (by simp [hva, bne_iff_ne, hv0] :
                    (v != "" && isAudioDeviceValue v) = true) h3
              · simpa using hva
          simp [filterExtra, claimFilterAmended, h1, h2, h3, hv, ih2]
      · simp [filterExtra, claimFilterAmended, h1, h2, ih2]

/-- No `-audiodev` token ever survives the source's filtering loop. -/
lemma audiodev_not_mem_filterExtra :
    ∀ ts, "-audiodev" ∉ filterExtra true ts
  | [] => by simp [filterExtra]
  | [a] => by
    by_cases h1 : a == "-soundhw" || a == "-audiodev"
    · simp [filterExtra, h1]
    · have ha : ¬("-audiodev" = a) := by
        intro h; apply h1; rw [← h]; simp
      by_cases h2 : a == "-device"
      · rw [show filterExtra true [a] = [a] from by simp [filterExtra, h1, h2]]
        simpa using ha
      · rw [show filterExtra true [a] = [a] from by simp [filterExtra, h1, h2]]
        simpa using ha
  | a :: v :: rest => by
    have ih1 := audiodev_not_mem_filterExtra rest
    have ih2 := audiodev_not_mem_filterExtra (v :: rest)
    by_cases h1 : a == "-soundhw" || a == "-audiodev"
    · simpa [filterExtra, h1] using ih1
    · have ha : ¬("-audiodev" = a) := by
        intro h; apply h1; rw [← h]; simp
      by_cases h2 : a == "-device"
      · by_cases h3 : v != "" && isAudioDeviceValue v
        · simpa [filterExtra, h1, h2, h3] using ih1
        · rw [show filterExtra true (a :: v :: rest)
              = a :: filterExtra true (v :: rest) from by
            simp [filterExtra, h1, h2, h3]]
          simp only [List.mem_cons, not_or]
          exact ⟨ha, ih2⟩
      · rw [show filterExtra true (a :: v :: rest)
            = a :: filterExtra true (v :: rest) from by
          simp [filterExtra, h1, h2]]
        simp only [List.mem_cons, not_or]
        exact ⟨ha, ih2⟩

/-- The configuration of the C1 counterexample: the extra-arguments string
tokenizes to a single trailing `-soundhw` flag with no value token. -/
def cfgC1 : VMConfig := { extra_qemu_args := ["-soundhw"] }

/-- The vector compiled from `cfgC1`. -/
def vC1 : List String :=
  ["qemu-system-x86_64", "-m", "1G", "-smp", "1", "-machine", "q35",
   "-accel", "tcg", "-vga", "std", "-display", "default,show-cursor=on",
   "-usb", "-device", "usb-tablet", "-boot", "order=c"]

/-- C1 counterexample: a lone trailing `-soundhw` token is not part of any
flag/value pair, so under the claim it should appear in the final vector
unchanged — but the source consumes and drops it, and the compiled vector
does not contain it. -/
theorem c1_counterexample_trailing_flag :
    filterExtra true ["-soundhw"] = []
    ∧ claimFilter ["-soundhw"] = ["-soundhw"]
    ∧ buildFromConfig envSimple hostLinuxNoKvm cfgC1 = .ok vC1
    ∧ "-soundhw" ∉ vC1 :=
  ⟨rfl, rfl, rfl, by decide⟩

/-- C1 amended: the filter is active under both audio decisions (always);
it removes every `-soundhw`/`-audiodev` flag together with its value token
when one follows (a trailing lone flag is removed by itself), and every
`-device <value>` pair whose value matches the audio test; every other
token passes through unchanged and in order; the filtered tokens land
between the base arguments and the script audio arguments of the final
vector. -/
theorem c1_amended_filter (host : Host) (cfg : VMConfig) (env : Env) (bin : String) :
    audioFilterActive host cfg = true
    ∧ (∀ ts, filterExtra true ts = claimFilterAmended ts)
    ∧ (env.qemuSystemBin = some bin → primaryAborts env cfg = false →
        buildFromConfig env host cfg
          = .ok (baseArgs env host cfg bin
              ++ claimFilterAmended cfg.extra_qemu_args
              ++ scriptAudioArgs host cfg)) := by
  refine ⟨audioFilterActive_eq_true host cfg, filterExtra_eq_claimFilterAmended, ?_⟩
  intro hb ha
  simp [buildFromConfig, hb, buildWithBin, ha, audioFilterActive_eq_true host cfg,
    filterExtra_eq_claimFilterAmended]

/-- C1 witness: the amended filter equation on a concrete build. -/
theorem c1_amended_filter_witness :
    buildFromConfig envSimple hostLinuxNoKvm cfgC1
      = .ok (baseArgs envSimple hostLinuxNoKvm cfgC1 "qemu-system-x86_64"
          ++ claimFilterAmended cfgC1.extra_qemu_args
          ++ scriptAudioArgs hostLinuxNoKvm cfgC1) :=
  (c1_amended_filter hostLinuxNoKvm cfgC1 envSimple "qemu-system-x86_64").2.2
    rfl (by decide)

/-- C4: every successful compilation is, in order, the base arguments,
then the filtered passthrough tokens, then the script audio tokens; the
drive tokens are the flat concatenation of one `-drive <joined-params>`
token pair per resolved drive; and every drive's parameter list is
`file=`, then `format=` exactly when the format string is non-empty, then
`if=`, `index=`, `media=disk` (plus `readonly=on` for read-only shared
disks). -/
theorem c4_vector_order_and_drive_shape :
    (∀ (env : Env) (host : Host) (cfg : VMConfig) (bin : String) (v : List String),
      env.qemuSystemBin = some bin → buildFromConfig env host cfg = .ok v →
      v = baseArgs env host cfg bin
          ++ filterExtra (audioFilterActive host cfg) cfg.extra_qemu_args
          ++ scriptAudioArgs host cfg)
    ∧ (∀ (env : Env) (cfg : VMConfig),
        primaryDriveArgs env cfg
          ++ sharedDriveArgs env (startIdx env cfg) cfg.shared_disks
        = (emittedDrives env cfg).flatMap driveTokensOf)
    ∧ (∀ rd : ResolvedDrive,
        driveParamsFor rd.path rd.format rd.interface rd.index rd.readonly
          = ["file=" ++ rd.path]
            ++ (if rd.format != "" then ["format=" ++ rd.format] else [])
            ++ ["if=" ++ rd.interface, "index=" ++ toString rd.index, "media=disk"]
            ++ (if rd.readonly then ["readonly=on"] else [])
        ∧ (driveParamsFor rd.path rd.format rd.interface rd.index rd.readonly).head?
            = some ("file=" ++ rd.path)
        ∧ "media=disk" ∈ driveParamsFor rd.path rd.format rd.interface rd.index rd.readonly
        ∧ ("if=" ++ rd.interface)
            ∈ driveParamsFor rd.path rd.format rd.interface rd.index rd.readonly
        ∧ ("index=" ++ toString rd.index)
            ∈ driveParamsFor rd.path rd.format rd.interface rd.index rd.readonly
        ∧ (rd.format ≠ "" →
            (driveParamsFor rd.path rd.format rd.interface rd.index rd.readonly)[1]?
              = some ("format=" ++ rd.format))) := by
  refine ⟨?_, ?_, ?_⟩
  · intro env host cfg bin v hb hok
    unfold buildFromConfig at hok
    rw [hb] at hok
    unfold buildWithBin at hok
    by_cases ha : primaryAborts env cfg
    · simp [ha] at hok
    · simp only [ha, Bool.false_eq_true, if_false, Except.ok.injEq] at hok
      exact hok.symm
  · intro env cfg
    by_cases h : primaryAttached env cfg
    · simp [emittedDrives, primaryDriveArgs, h, startIdx, driveTokensOf,
        sharedDriveArgs_eq_flatMap env 1 cfg.shared_disks]
    · simp [emittedDrives, primaryDriveArgs, h, startIdx,
        sharedDriveArgs_eq_flatMap env 0 cfg.shared_disks]
  · intro rd
    have hform : rd.format ≠ "" →
        (driveParamsFor rd.path rd.format rd.interface rd.index rd.readonly)[1]?
          = some ("format=" ++ rd.format) := by
      intro hne
      have hf : (rd.format != "") = true := by simpa [bne_iff_ne] using hne
      cases hr : rd.readonly <;> simp [driveParamsFor, hf, hr]
    refine ⟨?_, driveParamsFor_head _ _ _ _ _, ?_, ?_, ?_, hform⟩ <;>
      cases hf : (rd.format != "") <;> cases hr : rd.readonly <;>
        simp [driveParamsFor, hf, hr]

/-- C4 witness: the assembled order on a concrete build. -/
theorem c4_vector_order_and_drive_shape_witness :
    vC1 = baseArgs envSimple hostLinuxNoKvm cfgC1 "qemu-system-x86_64"
        ++ filterExtra (audioFilterActive hostLinuxNoKvm cfgC1) cfgC1.extra_qemu_args
        ++ scriptAudioArgs hostLinuxNoKvm cfgC1 :=
  c4_vector_order_and_drive_shape.1 envSimple hostLinuxNoKvm cfgC1
    "qemu-system-x86_64" vC1 rfl rfl

/-- The configuration of the C7 failing input: audio disabled, no base
`-device` tokens, and extra arguments whose filtering creates a surviving
audio `-device` pair that the sanity scan detects. -/
def cfgC7 : VMConfig :=
  { usb_tablet := false, accelerator := "tcg",
    extra_qemu_args := ["-device", "-soundhw", "x", "ich9-intel-hda"] }

/-- The vector compiled from `cfgC7`. -/
def vC7 : List String :=
  ["qemu-system-x86_64", "-m", "1G", "-smp", "1", "-machine", "q35",
   "-accel", "tcg", "-vga", "std", "-display", "default,show-cursor=on",
   "-boot", "order=c", "-device", "ich9-intel-hda"]

/-- C7: when the decision is `Disabled`, the warning is NEVER surfaced —
the warning branch additionally requires non-empty script-generated audio
arguments, which are always empty in that state; on the concrete failing
input the sanity scan does detect a surviving audio token, the vector is
returned unmutated, and still no warning is emitted. -/
theorem c7_disabled_audio_warning_never_surfaced :
    (∀ (host : Host) (cfg : VMConfig) (v : List String),
      scriptIntendsDisable cfg = true → audioSanityWarning host cfg v = false)
    ∧ (scriptIntendsDisable cfgC7 = true
       ∧ buildFromConfig envSimple hostLinuxNoKvm cfgC7 = .ok vC7
       ∧ hasAnyActiveAudio vC7 = true
       ∧ audioSanityWarning hostLinuxNoKvm cfgC7 vC7 = false) := by
  constructor
  · intro host cfg v h
    have he : scriptAudioEnabled cfg = false := by
      unfold scriptIntendsDisable at h
      simpa using h
    have hargs : scriptAudioArgs host cfg = [] := by simp [scriptAudioArgs, he]
    simp [audioSanityWarning, hargs]
  · exact ⟨by decide, rfl, by decide, by decide⟩

/-- C7 witness: the never-surfaced warning applied at a concrete input. -/
theorem c7_disabled_audio_warning_never_surfaced_witness :
    audioSanityWarning hostLinuxNoKvm cfgC7 vC7 = false :=
  c7_disabled_audio_warning_never_surfaced.1 hostLinuxNoKvm cfgC7 vC7 (by decide)

/-- The configuration of the C6 counterexample: audio script-managed, with
adversarial extra arguments whose filtering creates a second audio
`-device` pair with the exact script value. -/
def cfgC6ce : VMConfig :=
  { audio_enabled := true, audio_device_model := "ich9-intel-hda",
    audio_backend := "auto",
    extra_qemu_args := ["-device", "-soundhw", "x", "ich9-intel-hda,audiodev=audio0"] }

/-- The vector compiled from `cfgC6ce`. -/
def vC6ce : List String :=
  ["qemu-system-x86_64", "-m", "1G", "-smp", "1", "-machine", "q35",
   "-accel", "tcg", "-vga", "std", "-display", "default,show-cursor=on",
   "-usb", "-device", "usb-tablet", "-boot", "order=c",
   "-device", "ich9-intel-hda,audiodev=audio0",
   "-audiodev", "pa,id=audio0", "-device", "ich9-intel-hda,audiodev=audio0"]

/-- C6 counterexample: with the decision `ScriptManaged("pa",
"ich9-intel-hda")`, the final vector contains TWO `-device` arguments with
value `ich9-intel-hda,audiodev=audio0` — the single-pass filter removed
`-soundhw x` between `-device` and an audio value and thereby created a
surviving audio device pair, so "exactly one" fails. -/
theorem c6_counterexample_duplicate_audio_device :
    audioDecision hostLinuxNoKvm cfgC6ce = .scriptManaged "pa" "ich9-intel-hda"
    ∧ buildFromConfig envSimple hostLinuxNoKvm cfgC6ce = .ok vC6ce
    ∧ flagValuePairCount vC6ce "-device" "ich9-intel-hda,audiodev=audio0" = 2
    ∧ audioDevicePairCount vC6ce = 2 :=
  ⟨by decide, rfl, by decide, by decide⟩

/-- The configuration of the C6 scenario: audio enabled, model
`ich9-intel-hda`, backend `auto`, no extra arguments. -/
def cfgC6scen : VMConfig :=
  { audio_enabled := true, audio_device_model := "ich9-intel-hda",
    audio_backend := "auto" }

/-- The vector compiled from `cfgC6scen` on a Linux host. -/
def vC6scen : List String :=
  ["qemu-system-x86_64", "-m", "1G", "-smp", "1", "-machine", "q35",
   "-accel", "tcg", "-vga", "std", "-display", "default,show-cursor=on",
   "-usb", "-device", "usb-tablet", "-boot", "order=c",
   "-audiodev", "pa,id=audio0", "-device", "ich9-intel-hda,audiodev=audio0"]

/-- C6 amended: when the decision is `ScriptManaged(b, m)` the script
audio component is exactly `-audiodev b,id=audio0 -device
m,audiodev=audio0`, with `auto` backends resolved per OS (wasapi/pa/
coreaudio/sdl) and non-`auto` backends verbatim; no `-audiodev` token
survives filtering; and in the concrete Linux scenario the final vector
contains exactly one such pair of each kind (exactness over the whole
vector does not hold for every configuration — see the counterexample). -/
theorem c6_amended_script_audio :
    (∀ (host : Host) (cfg : VMConfig) (b m : String),
      audioDecision host cfg = .scriptManaged b m →
      scriptAudioArgs host cfg
        = ["-audiodev", b ++ ",id=audio0", "-device", m ++ ",audiodev=audio0"]
      ∧ b = resolveAudioBackend host.os (audioBackend cfg)
      ∧ m = audioModel cfg)
    ∧ (∀ os : String,
        resolveAudioBackend os "auto"
          = (if os = "windows" then "wasapi"
             else if os = "linux" then "pa"
             else if os = "macos" then "coreaudio" else "sdl"))
    ∧ (∀ os b, b ≠ "auto" → resolveAudioBackend os b = b)
    ∧ (∀ ts, "-audiodev" ∉ filterExtra true ts)
    ∧ (audioDecision hostLinuxNoKvm cfgC6scen = .scriptManaged "pa" "ich9-intel-hda"
       ∧ buildFromConfig envSimple hostLinuxNoKvm cfgC6scen = .ok vC6scen
       ∧ vC6scen.count "-audiodev" = 1
       ∧ flagValuePairCount vC6scen "-audiodev" "pa,id=audio0" = 1
       ∧ audioDevicePairCount vC6scen = 1
       ∧ flagValuePairCount vC6scen "-device" "ich9-intel-hda,audiodev=audio0" = 1) := by
  refine ⟨?_, ?_, ?_, audiodev_not_mem_filterExtra,
    by decide, rfl, by decide, by decide, by decide, by decide⟩
  · intro host cfg b m h
    unfold audioDecision at h
    by_cases he : scriptAudioEnabled cfg
    · simp only [he, if_true, AudioDecision.scriptManaged.injEq] at h
      obtain ⟨hb, hm⟩ := h
      subst hb; subst hm
      exact ⟨by simp [scriptAudioArgs, he], rfl, rfl⟩
    · simp [he] at h
  · intro os
    by_cases h1 : os = "windows"
    · simp [resolveAudioBackend, beq_iff_eq, h1]
    · by_cases h2 : os = "linux"
      · simp [resolveAudioBackend, beq_iff_eq, h1, h2]
      · by_cases h3 : os = "macos"
        · simp [resolveAudioBackend, beq_iff_eq, h1, h2, h3]
        · simp [resolveAudioBackend, beq_iff_eq, h1, h2, h3]
  · intro os b hb
    simp [resolveAudioBackend, beq_iff_eq, hb]

/-- C6 witness: the script audio component of the concrete scenario. -/
theorem c6_amended_script_audio_witness :
    scriptAudioArgs hostLinuxNoKvm cfgC6scen
      = ["-audiodev", "pa" ++ ",id=audio0", "-device",
         "ich9-intel-hda" ++ ",audiodev=audio0"]
    ∧ "pa" = resolveAudioBackend hostLinuxNoKvm.os (audioBackend cfgC6scen)
    ∧ "ich9-intel-hda" = audioModel cfgC6scen :=
  c6_amended_script_audio.1 hostLinuxNoKvm cfgC6scen "pa" "ich9-intel-hda" (by decide)

end QemuLauncher
